import Mathlib

/-!
Shallow embedding of the NotebookSketch single-page application
(the React component `NotebookSketchApp` and its handlers
`handleGenerate`, `handleImageUpload`, `handleApiKeyChange`).
React state hooks become an explicit `AppState` record, `localStorage`
becomes an explicit key/value `Store`, and the one asynchronous network
call (`ai.models.generateContent`) is modelled by passing its outcome
(a response value or a thrown error) as a parameter to the handler.
JavaScript string truthiness (`!s` is true for `null`, `undefined` and
`""`) is modelled explicitly.
-/

namespace NotebookSketch

/-- JavaScript substring search on unpacked strings: `subList n h` is
`true` iff `n` occurs as a contiguous sublist of `h`
(the semantics of `hay.includes(needle)` for nonempty needles,
and `true` on an empty needle, as in JavaScript). -/
def subList (n : List Char) : List Char → Bool
  | [] => n.isEmpty
  | c :: t => List.isPrefixOf n (c :: t) || subList n t

/-- `containsSub hay needle` models JavaScript `hay.includes(needle)`. -/
def containsSub (hay needle : String) : Bool :=
  subList needle.data hay.data

/-- JavaScript truthiness of a `string | null | undefined` value:
`null`/`undefined` and the empty string are falsy. -/
def jsTruthy : Option String → Bool
  | none => false
  | some s => s ≠ ""

/-- JavaScript `a || b` for `a : string | null | undefined` falling back
to a string `b`. -/
def jsOrS (a : Option String) (b : String) : String :=
  match a with
  | some s => if s = "" then b else s
  | none => b

/-- Paper types available for the sketch (`type PaperType`). -/
inductive PaperType where
  | lined
  | graph
  | plain
deriving Repr, DecidableEq

/-- String form of a `PaperType` value, as interpolated into the prompt
template literal. -/
def PaperType.str : PaperType → String
  | .lined => "lined"
  | .graph => "graph"
  | .plain => "plain"

/-- The React component state of `NotebookSketchApp`: one field per
`useState` hook. `string | null` fields are `Option String`. -/
structure AppState where
  selectedImage : Option String
  generatedImage : Option String
  isGenerating : Bool
  error : Option String
  customText : String
  paperType : PaperType
  lastPrompt : String
  apiKey : String
deriving Repr, DecidableEq

/-- Message set when generation is attempted without a credential. -/
def missingKeyMsg : String := "Please enter your Gemini API Key first."

/-- Message set when the caught failure is classified as an
authentication problem. -/
def authFailedMsg : String := "Authentication failed. Please check your API key."

/-- Message of the error thrown when the response carried text but no
image part. -/
def textInsteadMsg : String :=
  "The AI returned text instead of an image. It might have misunderstood the prompt or triggered a safety filter."

/-- Message of the error thrown when the response carried neither an
image part nor text. -/
def noImageGeneratedMsg : String :=
  "No image was generated. Please try again with a different photo."

/-- Catch-all message for quota, billing or malformed-response
failures. -/
def billingHintMsg : String :=
  "Generation failed. This is often because your API key is not linked to a billing account (required for image generation). Please check Option 1 below or use Option 2."

/-- The prompt template literal of `handleGenerate`, with the paper
type and the custom bubble text interpolated. -/
def mkPrompt (paperType : PaperType) (customText : String) : String :=
  "Convert this photo into a creative, hand-drawn colored pencil sketch on "
    ++ paperType.str ++ " notebook paper. \n      \n      Style details:\n      - The background MUST look like a real sheet of "
    ++ paperType.str ++ " paper.\n      - The subjects should be drawn in a loose, artistic colored pencil or ballpoint pen style.\n      - Add a slight glowing yellow or neon outline around the main subjects.\n      - Add playful, hand-drawn red or blue ink speech bubbles and doodles around the subjects.\n      - Inside the speech bubbles/doodles, include these specific words: \""
    ++ customText ++ "\".\n      - Add decorative stars, hearts, and squiggles in the empty spaces.\n      - The overall vibe should be fun, energetic, and scrapbook-style."

/-- State after the prologue of `handleGenerate` once both guards have
passed: `setIsGenerating(true)`, `setError(null)`,
`setGeneratedImage(null)`, `setLastPrompt(prompt)`. -/
def startState (s : AppState) : AppState :=
  { s with
    isGenerating := true
    error := none
    generatedImage := none
    lastPrompt := mkPrompt s.paperType s.customText }

/-- The `inlineData` object of a response part; both fields may be
absent in the wire format. -/
structure InlineData where
  mimeType : Option String
  data : Option String
deriving Repr, DecidableEq

/-- One content part of the generation response. -/
structure Part where
  text : Option String
  inlineData : Option InlineData
deriving Repr, DecidableEq

/-- The `content` object of a response candidate. -/
structure Content where
  parts : Option (List Part)
deriving Repr, DecidableEq

/-- One candidate of the generation response. -/
structure Candidate where
  content : Option Content
deriving Repr, DecidableEq

/-- The generation response: the `candidates` array and the SDK's
aggregated `response.text` accessor, modelled as a field. -/
structure GenResponse where
  candidates : Option (List Candidate)
  text : Option String
deriving Repr, DecidableEq

/-- The loop condition `part.inlineData && part.inlineData.data`:
the part carries inline image data. -/
def partHasImage (p : Part) : Bool :=
  match p.inlineData with
  | some d => d.data.getD "" ≠ ""
  | none => false

/-- The data URL built from an image-bearing part:
`` `data:${imgMime};base64,${part.inlineData.data}` `` with
`imgMime = part.inlineData.mimeType || 'image/png'`. -/
def imageDataUrl (d : InlineData) : String :=
  "data:" ++ jsOrS d.mimeType "image/png" ++ ";base64," ++ d.data.getD ""

/-- The optional-chaining access
`response.candidates?.[0]?.content?.parts`. -/
def respParts (r : GenResponse) : Option (List Part) :=
  match r.candidates with
  | some (c :: _) =>
    match c.content with
    | some ct => ct.parts
    | none => none
  | _ => none

/-- The `for (const part of parts)` loop: walk the parts, and on the
first one whose `inlineData.data` is truthy set `generatedImage` to its
data URL and stop with `foundImage = true`. -/
def findImageLoop (s1 : AppState) : List Part → AppState × Bool
  | [] => (s1, false)
  | p :: rest =>
    match p.inlineData with
    | some d =>
      if d.data.getD "" ≠ "" then
        ({ s1 with generatedImage := some (imageDataUrl d) }, true)
      else findImageLoop s1 rest
    | none => findImageLoop s1 rest

/-- A caught JavaScript error value, reduced to the two projections the
catch block reads: `err.toString()` and `err.message || ""`. -/
structure JsError where
  toString : String
  message : String
deriving Repr, DecidableEq

/-- A `new Error(msg)` thrown inside the try block: its `toString()` is
`"Error: " ++ msg` and its `message` is `msg`. -/
def mkError (msg : String) : JsError :=
  { toString := "Error: " ++ msg, message := msg }

/-- The catch block of `handleGenerate`: substring classification of
the caught failure into the authentication message, the error's own
message for the known domain errors, or the billing/quota hint. -/
def classifyCatch (err : JsError) : String :=
  if containsSub err.toString "401" || containsSub err.toString "403"
      || containsSub err.toString "API key" || containsSub err.message "API key" then
    authFailedMsg
  else if containsSub err.message "safety filter"
      || containsSub err.message "text instead of an image"
      || containsSub err.message "No image was generated" then
    err.message
  else
    billingHintMsg

/-- The `if (!foundImage)` block: throw the text-instead error when
`response.text` is truthy, otherwise the no-image error; both throws
land in the same catch block, modelled by `classifyCatch ∘ mkError`. -/
def noImageBranch (s1 : AppState) (resp : GenResponse) : AppState :=
  match resp.text with
  | some t =>
    if t ≠ "" then { s1 with error := some (classifyCatch (mkError textInsteadMsg)) }
    else { s1 with error := some (classifyCatch (mkError noImageGeneratedMsg)) }
  | none => { s1 with error := some (classifyCatch (mkError noImageGeneratedMsg)) }

/-- Outcome of the awaited `ai.models.generateContent` call: a response
value, or a thrown failure. -/
inductive CallOutcome where
  | success (resp : GenResponse)
  | failure (err : JsError)
deriving Repr, DecidableEq

/-- The try/catch body of `handleGenerate` after the prologue, given
the outcome of the network call. -/
def runAttempt (s1 : AppState) (o : CallOutcome) : AppState :=
  match o with
  | .failure err => { s1 with error := some (classifyCatch err) }
  | .success resp =>
    match respParts resp with
    | some ps =>
      let r := findImageLoop s1 ps
      if r.2 then r.1 else noImageBranch r.1 resp
    | none => noImageBranch s1 resp

/-- `handleGenerate`: the guards, the prologue, the try/catch body and
the `finally { setIsGenerating(false) }`. The second component records
whether the network request was issued. -/
def handleGenerate (s : AppState) (o : CallOutcome) : AppState × Bool :=
  if !jsTruthy s.selectedImage then (s, false)
  else if s.apiKey = "" then ({ s with error := some missingKeyMsg }, false)
  else
    let s1 := startState s
    let s2 := runAttempt s1 o
    ({ s2 with isGenerating := false }, true)

/-- `handleImageUpload`: `uploaded` is the FileReader data-URL result
of `event.target.files?.[0]` when a file was chosen; the `onloadend`
callback then sets the new source image and clears the generated image
and the error. With no file the handler does nothing. -/
def handleImageUpload (s : AppState) (uploaded : Option String) : AppState :=
  match uploaded with
  | some r => { s with selectedImage := some r, generatedImage := none, error := none }
  | none => s

/-- The browser-local key/value store (`localStorage`). -/
def Store : Type := String → Option String

/-- `localStorage.setItem`. -/
def setItem (st : Store) (k v : String) : Store :=
  fun q => if q = k then some v else st q

/-- `localStorage.getItem`. -/
def getItem (st : Store) (k : String) : Option String :=
  st k

/-- The fixed persistence key for the credential. -/
def credentialKeyName : String := "gemini_api_key"

/-- `handleApiKeyChange`: store the new key in component state and in
`localStorage`, and clear the error when it is an authentication
error. -/
def handleApiKeyChange (s : AppState) (st : Store) (newKey : String) : AppState × Store :=
  let s1 : AppState := { s with apiKey := newKey }
  let st1 := setItem st credentialKeyName newKey
  match s.error with
  | some e =>
    if e ≠ "" && (containsSub e "API key" || containsSub e "Authentication") then
      ({ s1 with error := none }, st1)
    else (s1, st1)
  | none => (s1, st1)

/-- The `useState` initializer of `apiKey`:
`localStorage.getItem("gemini_api_key") || process.env.API_KEY || ""`.
`envApiKey` is the build-time environment value. -/
def initApiKey (st : Store) (envApiKey : Option String) : String :=
  jsOrS (getItem st credentialKeyName) (jsOrS envApiKey "")

/-- The component state on page load: every `useState` initial value,
with the credential read back from the store. -/
def initialAppState (st : Store) (envApiKey : Option String) : AppState :=
  { selectedImage := none
    generatedImage := none
    isGenerating := false
    error := none
    customText := "FESTIVAL, LOVE, FUN"
    paperType := .lined
    lastPrompt := ""
    apiKey := initApiKey st envApiKey }

/-- Whether the part list inspected by the handler
(`response.candidates?.[0]?.content?.parts`) carries any inline image
data. -/
def respHasImage (resp : GenResponse) : Bool :=
  match respParts resp with
  | some ps => ps.any partHasImage
  | none => false

/-- Concrete session state: image selected, a previous generated image
still present, and the credential cleared. -/
def stC1 : AppState :=
  { selectedImage := some "data:image/png;base64,AAAA"
    generatedImage := some "data:image/png;base64,OLD1"
    isGenerating := false
    error := none
    customText := "FESTIVAL, LOVE, FUN"
    paperType := .lined
    lastPrompt := ""
    apiKey := "" }

/-- Concrete session state: image selected and a credential present. -/
def stC1w : AppState :=
  { selectedImage := some "data:image/png;base64,AAAA"
    generatedImage := none
    isGenerating := false
    error := none
    customText := "FESTIVAL, LOVE, FUN"
    paperType := .lined
    lastPrompt := ""
    apiKey := "key123" }

/-- Concrete session state: no image selected and no credential. -/
def stC2 : AppState :=
  { selectedImage := none
    generatedImage := none
    isGenerating := false
    error := none
    customText := "FESTIVAL, LOVE, FUN"
    paperType := .plain
    lastPrompt := ""
    apiKey := "" }

/-- Concrete session state: image selected, no credential. -/
def stC2w : AppState :=
  { selectedImage := some "data:image/jpeg;base64,BBBB"
    generatedImage := none
    isGenerating := false
    error := none
    customText := "FESTIVAL, LOVE, FUN"
    paperType := .graph
    lastPrompt := ""
    apiKey := "" }

/-- Concrete session state: image selected and a credential present. -/
def stC4 : AppState :=
  { selectedImage := some "data:image/png;base64,CCCC"
    generatedImage := none
    isGenerating := false
    error := none
    customText := "LOVE"
    paperType := .lined
    lastPrompt := ""
    apiKey := "key123" }

/-- Concrete inline image data of the first image-bearing part. -/
def inlC4 : InlineData := { mimeType := some "image/png", data := some "QUJD" }

/-- Concrete image-bearing part. -/
def partC4 : Part := { text := none, inlineData := some inlC4 }

/-- Concrete part list: a text part, then two image parts. -/
def partsC4 : List Part :=
  [ { text := some "Here is your sketch", inlineData := none },
    partC4,
    { text := none, inlineData := some { mimeType := none, data := some "WFla" } } ]

/-- Concrete response whose first candidate carries `partsC4`. -/
def respC4 : GenResponse :=
  { candidates := some [{ content := some { parts := some partsC4 } }]
    text := none }

/-- Concrete session state for the text-only response claim. -/
def stC5 : AppState :=
  { selectedImage := some "data:image/png;base64,DDDD"
    generatedImage := none
    isGenerating := false
    error := none
    customText := "FUN"
    paperType := .plain
    lastPrompt := ""
    apiKey := "key123" }

/-- Concrete response carrying only a text part. -/
def respC5 : GenResponse :=
  { candidates := some [{ content := some { parts := some [{ text := some "I cannot do that", inlineData := none }] } }]
    text := some "I cannot do that" }

/-- Concrete session state for the empty-response claim. -/
def stC6 : AppState :=
  { selectedImage := some "data:image/png;base64,EEEE"
    generatedImage := none
    isGenerating := false
    error := none
    customText := "WOW"
    paperType := .graph
    lastPrompt := ""
    apiKey := "key123" }

/-- Concrete response carrying neither an image part nor text. -/
def respC6 : GenResponse :=
  { candidates := some []
    text := none }

/-- Concrete session state for the error-classification claims. -/
def stC7 : AppState :=
  { selectedImage := some "data:image/png;base64,FFFF"
    generatedImage := none
    isGenerating := false
    error := none
    customText := "FESTIVAL"
    paperType := .lined
    lastPrompt := ""
    apiKey := "key123" }

/-- Concrete caught failure whose message, but not its string form,
contains the credential-related phrase 401. -/
def errC7 : JsError := { toString := "boom", message := "401 unauthorized" }

/-- Concrete caught failure with a quota-style message. -/
def errC7w : JsError :=
  { toString := "Error: Resource has been exhausted", message := "Resource has been exhausted" }

/-- Concrete session state for the busy-flag claim. -/
def stC8 : AppState :=
  { selectedImage := some "data:image/png;base64,GGGG"
    generatedImage := none
    isGenerating := false
    error := none
    customText := "FESTIVAL, LOVE, FUN"
    paperType := .lined
    lastPrompt := ""
    apiKey := "key123" }

/-- Concrete session state for the credential round-trip claim. -/
def stC9 : AppState :=
  { selectedImage := none
    generatedImage := none
    isGenerating := false
    error := some authFailedMsg
    customText := "FESTIVAL, LOVE, FUN"
    paperType := .lined
    lastPrompt := ""
    apiKey := "old" }

/-- Concrete empty browser-local store. -/
def stoC9 : Store := fun _ => none

/-- Concrete session state with no image selected but other fields
populated, for the no-op claim. -/
def stC10 : AppState :=
  { selectedImage := none
    generatedImage := some "data:image/png;base64,HHHH"
    isGenerating := false
    error := some billingHintMsg
    customText := "FESTIVAL"
    paperType := .plain
    lastPrompt := "previous prompt"
    apiKey := "" }

/-! Helper lemmas about the image-search loop and the error branches. -/

/-- If the first image-bearing part of `ps` is `p`, with inline data
`d`, the loop stops there: it sets `generatedImage` to the data URL of
`d` and reports `foundImage = true`. -/
theorem findImageLoop_found (s1 : AppState) (ps : List Part) (p : Part) (d : InlineData)
    (hf : ps.find? partHasImage = some p) (hd : p.inlineData = some d) :
    findImageLoop s1 ps = ({ s1 with generatedImage := some (imageDataUrl d) }, true) := by
  induction ps with
  | nil => simp [List.find?] at hf
  | cons q rest ih =>
    by_cases hq : partHasImage q
    · rw [List.find?_cons_of_pos _ hq] at hf
      obtain rfl : q = p := by simpa using hf
      have hq2 : d.data.getD "" ≠ "" := by
        simpa [partHasImage, hd] using hq
      simp [findImageLoop, hd, hq2]
    · rw [List.find?_cons_of_neg _ hq] at hf
      cases hq' : q.inlineData with
      | none => simpa [findImageLoop, hq'] using ih hf
      | some d' =>
        have hq2 : d'.data.getD "" = "" := by
          simpa [partHasImage, hq'] using hq
        simpa [findImageLoop, hq', hq2] using ih hf

/-- If no part of `ps` carries inline image data, the loop leaves the
state alone and reports `foundImage = false`. -/
theorem findImageLoop_of_any_eq_false (s1 : AppState) (ps : List Part)
    (h : ps.any partHasImage = false) :
    findImageLoop s1 ps = (s1, false) := by
  induction ps with
  | nil => rfl
  | cons q rest ih =>
    simp only [List.any_cons, Bool.or_eq_false_iff] at h
    obtain ⟨hq, hrest⟩ := h
    cases hq' : q.inlineData with
    | none => simpa [findImageLoop, hq'] using ih hrest
    | some d' =>
      have hq2 : d'.data.getD "" = "" := by
        simpa [partHasImage, hq'] using hq
      simpa [findImageLoop, hq', hq2] using ih hrest

/-- Either the loop finds nothing and leaves the state alone, or it
sets `generatedImage` to some data URL and reports success. -/
theorem findImageLoop_spec (s1 : AppState) (ps : List Part) :
    findImageLoop s1 ps = (s1, false) ∨
      ∃ d, findImageLoop s1 ps = ({ s1 with generatedImage := some (imageDataUrl d) }, true) := by
  induction ps with
  | nil => left; rfl
  | cons q rest ih =>
    cases hq' : q.inlineData with
    | none => simpa [findImageLoop, hq'] using ih
    | some d' =>
      by_cases hc : d'.data.getD "" = ""
      · simpa [findImageLoop, hq', hc] using ih
      · right
        exact ⟨d', by simp [findImageLoop, hq', hc]⟩

/-- The no-image branch always sets the error to some message and
touches no other field. -/
theorem noImageBranch_spec (s1 : AppState) (resp : GenResponse) :
    ∃ m, noImageBranch s1 resp = { s1 with error := some m } := by
  unfold noImageBranch
  cases resp.text with
  | none => exact ⟨_, rfl⟩
  | some t =>
    by_cases ht : t = ""
    · refine ⟨classifyCatch (mkError noImageGeneratedMsg), ?_⟩
      simp [ht]
    · refine ⟨classifyCatch (mkError textInsteadMsg), ?_⟩
      simp [ht]

/-- The internally thrown text-instead error is classified back to its
own message. -/
theorem classify_textInstead : classifyCatch (mkError textInsteadMsg) = textInsteadMsg := by
  decide

/-- The internally thrown no-image error is classified back to its own
message. -/
theorem classify_noImage : classifyCatch (mkError noImageGeneratedMsg) = noImageGeneratedMsg := by
  decide

/-! Claim theorems. -/

/-- C10: with no source image selected, `handleGenerate` is a complete
no-op: it returns before the credential check, issues no network
request, and leaves the whole session state (error and busy flag
included) unchanged. -/
theorem no_source_noop (s : AppState) (o : CallOutcome)
    (h : jsTruthy s.selectedImage = false) :
    handleGenerate s o = (s, false) := by
  simp [handleGenerate, h]

/-- Witness for C10: a concrete state with populated fields, no source
image and an empty credential is returned untouched and no request is
issued — in particular no missing-credential message appears. -/
theorem no_source_noop_witness :
    handleGenerate stC10 (CallOutcome.failure (mkError "boom")) = (stC10, false) :=
  no_source_noop stC10 (CallOutcome.failure (mkError "boom")) (by decide)

/-- C3: completing the image-upload handler with a newly read source
image sets `selectedImage` to it and resets both `generatedImage` and
`error` to null, whatever they were before. -/
theorem upload_resets_outputs (s : AppState) (img : String) :
    handleImageUpload s (some img) =
      { s with selectedImage := some img, generatedImage := none, error := none } :=
  rfl

/-- C2 counterexample: with an empty credential but also no source
image selected, the handler returns at the earlier guard, so the error
field is NOT set to the missing-credential message — the claim's
"regardless of the rest of the session state" fails. -/
theorem missing_key_cex :
    (handleGenerate stC2 (CallOutcome.failure (mkError "boom"))).2 = false ∧
    (handleGenerate stC2 (CallOutcome.failure (mkError "boom"))).1.error ≠ some missingKeyMsg := by
  decide

/-- C2 (amended): for every generation attempt started with a source
image selected and an empty credential string, no network request is
issued and the error field is immediately set to the missing-credential
message, whatever the rest of the session state. -/
theorem missing_key_sets_error (s : AppState) (o : CallOutcome)
    (h1 : jsTruthy s.selectedImage = true) (h2 : s.apiKey = "") :
    handleGenerate s o = ({ s with error := some missingKeyMsg }, false) := by
  simp [handleGenerate, h1, h2]

/-- Witness for C2: a concrete state with a source image and an empty
credential yields the missing-credential message and no request. -/
theorem missing_key_sets_error_witness :
    handleGenerate stC2w (CallOutcome.failure (mkError "boom")) =
      ({ stC2w with error := some missingKeyMsg }, false) :=
  missing_key_sets_error stC2w (CallOutcome.failure (mkError "boom")) (by decide) (by decide)

/-- C1 counterexample: starting from a state holding a previously
generated image, clearing the credential and running a generation
attempt leaves BOTH `generatedImage` and `error` non-null: the
missing-credential early return sets the error without clearing the old
output image. -/
theorem exclusivity_cex :
    ¬ ((handleGenerate stC1 (CallOutcome.failure (mkError "boom"))).1.generatedImage = none ∨
       (handleGenerate stC1 (CallOutcome.failure (mkError "boom"))).1.error = none) := by
  decide

/-- C1 (amended): for every generation attempt that passes both the
source-image and credential guards, afterwards at most one of
{generatedImage, error} is non-null: a success leaves `generatedImage`
set and `error` null, and any failure leaves `error` set and
`generatedImage` null. -/
theorem exclusivity_after_guards (s : AppState) (o : CallOutcome)
    (h1 : jsTruthy s.selectedImage = true) (h2 : s.apiKey ≠ "") :
    ((handleGenerate s o).1.generatedImage ≠ none ∧ (handleGenerate s o).1.error = none) ∨
    ((handleGenerate s o).1.error ≠ none ∧ (handleGenerate s o).1.generatedImage = none) := by
  have hgen : (handleGenerate s o).1 =
      { runAttempt (startState s) o with isGenerating := false } := by
    simp [handleGenerate, h1, h2]
  rw [hgen]
  cases o with
  | failure err =>
    right
    constructor
    · simp [runAttempt]
    · simp [runAttempt, startState]
  | success resp =>
    cases hps : respParts resp with
    | none =>
      right
      obtain ⟨m, hm⟩ := noImageBranch_spec (startState s) resp
      have hrun : runAttempt (startState s) (CallOutcome.success resp) =
          { startState s with error := some m } := by
        simp only [runAttempt, hps]
        exact hm
      rw [hrun]
      constructor
      · simp
      · simp [startState]
    | some ps =>
      rcases findImageLoop_spec (startState s) ps with hl | ⟨d, hl⟩
      · right
        obtain ⟨m, hm⟩ := noImageBranch_spec (startState s) resp
        have hrun : runAttempt (startState s) (CallOutcome.success resp) =
            { startState s with error := some m } := by
          simp only [runAttempt, hps]
          rw [hl]
          simpa using hm
        rw [hrun]
        constructor
        · simp
        · simp [startState]
      · left
        have hrun : runAttempt (startState s) (CallOutcome.success resp) =
            { startState s with generatedImage := some (imageDataUrl d) } := by
          simp only [runAttempt, hps]
          rw [hl]
          simp
        rw [hrun]
        constructor
        · simp
        · simp [startState]

/-- Witness for C1 (amended): a concrete attempt past both guards that
fails with a network error ends with the error set and the generated
image null. -/
theorem exclusivity_after_guards_witness :
    ((handleGenerate stC1w (CallOutcome.failure (mkError "network down"))).1.generatedImage ≠ none ∧
     (handleGenerate stC1w (CallOutcome.failure (mkError "network down"))).1.error = none) ∨
    ((handleGenerate stC1w (CallOutcome.failure (mkError "network down"))).1.error ≠ none ∧
     (handleGenerate stC1w (CallOutcome.failure (mkError "network down"))).1.generatedImage = none) :=
  exclusivity_after_guards stC1w (CallOutcome.failure (mkError "network down"))
    (by decide) (by decide)

/-- C4: when the first candidate's part list holds at least one part
with inline image data, the attempt succeeds: `generatedImage` becomes
the data URL built from the FIRST such part and `error` stays null. -/
theorem first_image_part_success (s : AppState) (resp : GenResponse)
    (ps : List Part) (p : Part) (d : InlineData)
    (h1 : jsTruthy s.selectedImage = true) (h2 : s.apiKey ≠ "")
    (hps : respParts resp = some ps)
    (hf : ps.find? partHasImage = some p) (hd : p.inlineData = some d) :
    (handleGenerate s (CallOutcome.success resp)).1.generatedImage = some (imageDataUrl d) ∧
    (handleGenerate s (CallOutcome.success resp)).1.error = none := by
  have hl := findImageLoop_found (startState s) ps p d hf hd
  have hgen : (handleGenerate s (CallOutcome.success resp)).1 =
      { runAttempt (startState s) (CallOutcome.success resp) with isGenerating := false } := by
    simp [handleGenerate, h1, h2]
  have hrun : runAttempt (startState s) (CallOutcome.success resp) =
      { startState s with generatedImage := some (imageDataUrl d) } := by
    simp only [runAttempt, hps]
    rw [hl]
    simp
  rw [hgen, hrun]
  constructor
  · simp
  · simp [startState]

/-- Witness for C4: a concrete response whose parts are a text part
followed by two image parts yields the data URL of the second (first
image-bearing) part and no error. -/
theorem first_image_part_success_witness :
    (handleGenerate stC4 (CallOutcome.success respC4)).1.generatedImage = some (imageDataUrl inlC4) ∧
    (handleGenerate stC4 (CallOutcome.success respC4)).1.error = none :=
  first_image_part_success stC4 respC4 partsC4 partC4 inlC4
    (by decide) (by decide) (by decide) (by decide) (by decide)

/-- C5: a response whose inspected part list carries no inline image
data but whose response text is non-empty ends the attempt with
`generatedImage` null and the text-instead-of-image error message. -/
theorem text_only_error (s : AppState) (resp : GenResponse) (t : String)
    (h1 : jsTruthy s.selectedImage = true) (h2 : s.apiKey ≠ "")
    (hni : respHasImage resp = false) (ht : resp.text = some t) (ht2 : t ≠ "") :
    (handleGenerate s (CallOutcome.success resp)).1.error = some textInsteadMsg ∧
    (handleGenerate s (CallOutcome.success resp)).1.generatedImage = none := by
  have hbr : noImageBranch (startState s) resp =
      { startState s with error := some textInsteadMsg } := by
    rw [noImageBranch, ht]
    simp [ht2, classify_textInstead]
  have hgen : (handleGenerate s (CallOutcome.success resp)).1 =
      { runAttempt (startState s) (CallOutcome.success resp) with isGenerating := false } := by
    simp [handleGenerate, h1, h2]
  have hrun : runAttempt (startState s) (CallOutcome.success resp) =
      { startState s with error := some textInsteadMsg } := by
    cases hps : respParts resp with
    | none =>
      simp only [runAttempt, hps]
      exact hbr
    | some ps =>
      have hany : ps.any partHasImage = false := by
        simpa [respHasImage, hps] using hni
      have hl := findImageLoop_of_any_eq_false (startState s) ps hany
      simp only [runAttempt, hps]
      rw [hl]
      simpa using hbr
  rw [hgen, hrun]
  constructor
  · simp
  · simp [startState]

/-- Witness for C5: a concrete text-only response produces exactly the
text-instead-of-image error and no generated image. -/
theorem text_only_error_witness :
    (handleGenerate stC5 (CallOutcome.success respC5)).1.error = some textInsteadMsg ∧
    (handleGenerate stC5 (CallOutcome.success respC5)).1.generatedImage = none :=
  text_only_error stC5 respC5 "I cannot do that"
    (by decide) (by decide) (by decide) (by decide) (by decide)

/-- C6: a response carrying neither inline image data in the inspected
part list nor response text ends the attempt with `generatedImage` null
and the no-image error message. -/
theorem no_image_error (s : AppState) (resp : GenResponse)
    (h1 : jsTruthy s.selectedImage = true) (h2 : s.apiKey ≠ "")
    (hni : respHasImage resp = false)
    (ht : resp.text = none ∨ resp.text = some "") :
    (handleGenerate s (CallOutcome.success resp)).1.error = some noImageGeneratedMsg ∧
    (handleGenerate s (CallOutcome.success resp)).1.generatedImage = none := by
  have hbr : noImageBranch (startState s) resp =
      { startState s with error := some noImageGeneratedMsg } := by
    rcases ht with ht | ht <;> rw [noImageBranch, ht] <;> simp [classify_noImage]
  have hgen : (handleGenerate s (CallOutcome.success resp)).1 =
      { runAttempt (startState s) (CallOutcome.success resp) with isGenerating := false } := by
    simp [handleGenerate, h1, h2]
  have hrun : runAttempt (startState s) (CallOutcome.success resp) =
      { startState s with error := some noImageGeneratedMsg } := by
    cases hps : respParts resp with
    | none =>
      simp only [runAttempt, hps]
      exact hbr
    | some ps =>
      have hany : ps.any partHasImage = false := by
        simpa [respHasImage, hps] using hni
      have hl := findImageLoop_of_any_eq_false (startState s) ps hany
      simp only [runAttempt, hps]
      rw [hl]
      simpa using hbr
  rw [hgen, hrun]
  constructor
  · simp
  · simp [startState]

/-- Witness for C6: a concrete response with an empty candidate list
and no text produces exactly the no-image error. -/
theorem no_image_error_witness :
    (handleGenerate stC6 (CallOutcome.success respC6)).1.error = some noImageGeneratedMsg ∧
    (handleGenerate stC6 (CallOutcome.success respC6)).1.generatedImage = none :=
  no_image_error stC6 respC6 (by decide) (by decide) (by decide) (Or.inl (by decide))

set_option maxRecDepth 20000 in
/-- C7 counterexample: a caught failure whose message (but not its
string form) contains the credential-related phrase 401 is NOT mapped
to the authentication-failure message: it falls through to the generic
billing/quota hint. -/
theorem classify_cex :
    (handleGenerate stC7 (CallOutcome.failure errC7)).1.error = some billingHintMsg ∧
    billingHintMsg ≠ authFailedMsg := by
  decide

/-- C7 (amended): for every failure caught during an attempt past both
guards, the error is classified by substring matching: if the failure's
string form contains 401 or 403, or its string form or message contains
the phrase API key, the error is the authentication-failure message;
else if its message signals a safety-filter rejection, text instead of
an image, or no image generated, the error is that message; every other
failure gets the generic billing/quota hint. The attempt also leaves
`generatedImage` null and the busy flag false. -/
theorem classify_catch_cases (s : AppState) (err : JsError)
    (h1 : jsTruthy s.selectedImage = true) (h2 : s.apiKey ≠ "") :
    (handleGenerate s (CallOutcome.failure err)).1.error =
      some (if containsSub err.toString "401" || containsSub err.toString "403"
              || containsSub err.toString "API key" || containsSub err.message "API key" then
              authFailedMsg
            else if containsSub err.message "safety filter"
              || containsSub err.message "text instead of an image"
              || containsSub err.message "No image was generated" then
              err.message
            else billingHintMsg) ∧
    (handleGenerate s (CallOutcome.failure err)).1.generatedImage = none ∧
    (handleGenerate s (CallOutcome.failure err)).1.isGenerating = false := by
  have hgen : (handleGenerate s (CallOutcome.failure err)).1 =
      { runAttempt (startState s) (CallOutcome.failure err) with isGenerating := false } := by
    simp [handleGenerate, h1, h2]
  rw [hgen]
  refine ⟨?_, ?_, ?_⟩
  · simp [runAttempt, classifyCatch]
  · simp [runAttempt, startState]
  · simp

/-- Witness for C7 (amended): a concrete quota-style failure past both
guards is classified to the generic billing/quota hint. -/
theorem classify_catch_cases_witness :
    (handleGenerate stC7 (CallOutcome.failure errC7w)).1.error =
      some (if containsSub errC7w.toString "401" || containsSub errC7w.toString "403"
              || containsSub errC7w.toString "API key" || containsSub errC7w.message "API key" then
              authFailedMsg
            else if containsSub errC7w.message "safety filter"
              || containsSub errC7w.message "text instead of an image"
              || containsSub errC7w.message "No image was generated" then
              errC7w.message
            else billingHintMsg) ∧
    (handleGenerate stC7 (CallOutcome.failure errC7w)).1.generatedImage = none ∧
    (handleGenerate stC7 (CallOutcome.failure errC7w)).1.isGenerating = false :=
  classify_catch_cases stC7 errC7w (by decide) (by decide)

/-- C8: the busy flag is set to true only after the source-image and
credential guards pass — a guard failure leaves it untouched — and
every attempt that starts ends with it false again, success and failure
alike, while the in-flight state carries it true. -/
theorem busy_flag_interval (s : AppState) (o : CallOutcome) :
    ((jsTruthy s.selectedImage = false ∨ s.apiKey = "") →
      (handleGenerate s o).1.isGenerating = s.isGenerating) ∧
    (jsTruthy s.selectedImage = true → s.apiKey ≠ "" →
      (startState s).isGenerating = true ∧ (handleGenerate s o).1.isGenerating = false) := by
  constructor
  · rintro (h | h)
    · simp [handleGenerate, h]
    · by_cases hsel : jsTruthy s.selectedImage <;> simp [handleGenerate, hsel, h]
  · intro h1 h2
    refine ⟨rfl, ?_⟩
    simp [handleGenerate, h1, h2]

/-- Witness for C8: a concrete attempt past both guards runs with the
busy flag true and ends with it false. -/
theorem busy_flag_interval_witness :
    (startState stC8).isGenerating = true ∧
    (handleGenerate stC8 (CallOutcome.failure (mkError "boom"))).1.isGenerating = false :=
  (busy_flag_interval stC8 (CallOutcome.failure (mkError "boom"))).2 (by decide) (by decide)

/-- C9: the credential round-trips through the browser-local store
under the fixed key gemini_api_key: every edit writes the new value
under that key and into component state; on a reload the initial
credential is read back from that key (falling back to the build-time
environment value and then the empty string), while every other field
of the initial state starts fresh. -/
theorem credential_roundtrip (s : AppState) (st : Store) (k : String) (env : Option String) :
    (handleApiKeyChange s st k).1.apiKey = k ∧
    getItem (handleApiKeyChange s st k).2 credentialKeyName = some k ∧
    (k ≠ "" → (initialAppState (handleApiKeyChange s st k).2 env).apiKey = k) ∧
    (getItem st credentialKeyName = none → initApiKey st env = jsOrS env "") ∧
    (initialAppState (handleApiKeyChange s st k).2 env).selectedImage = none ∧
    (initialAppState (handleApiKeyChange s st k).2 env).generatedImage = none ∧
    (initialAppState (handleApiKeyChange s st k).2 env).error = none := by
  have hsnd : (handleApiKeyChange s st k).2 = setItem st credentialKeyName k := by
    unfold handleApiKeyChange
    split
    · split <;> rfl
    · rfl
  have hfst : (handleApiKeyChange s st k).1.apiKey = k := by
    unfold handleApiKeyChange
    split
    · split <;> rfl
    · rfl
  have hget : getItem (setItem st credentialKeyName k) credentialKeyName = some k := by
    simp [getItem, setItem]
  refine ⟨hfst, ?_, ?_, ?_, ?_, ?_, ?_⟩
  · rw [hsnd]; exact hget
  · intro hk
    rw [hsnd]
    simp [initialAppState, initApiKey, hget, jsOrS, hk]
  · intro hnone
    simp [initApiKey, hnone, jsOrS]
  · rfl
  · rfl
  · rfl

/-- Witness for C9: a concrete edit of the credential to abc over an
empty store survives a reload, and the empty store falls back to the
environment value. -/
theorem credential_roundtrip_witness :
    (initialAppState (handleApiKeyChange stC9 stoC9 "abc").2 (some "envkey")).apiKey = "abc" ∧
    initApiKey stoC9 (some "envkey") = jsOrS (some "envkey") "" :=
  ⟨(credential_roundtrip stC9 stoC9 "abc" (some "envkey")).2.2.1 (by decide),
   (credential_roundtrip stC9 stoC9 "abc" (some "envkey")).2.2.2.1 rfl⟩

end NotebookSketch
